import Mathlib

/-!
Verification development for the VRPSolverEasy solver module
(`VRPSolverEasy/src/solver.py`): a shallow embedding of the validated
data model, the registries, the model builder, the request/response
documents and the engine binding, together with theorems settling the
specification claims.

Conventions of the embedding:
* Python numerics (`int` / `float` fields) are modelled as `Int`; no claim
  depends on fractional values, only on comparisons with integral defaults.
* Python `isinstance` type checks are discharged by the Lean types of the
  embedded arguments; the remaining range / enum / shape checks are kept
  explicitly, in the source's evaluation order.
* A fallible Python operation (one that may `raise`) becomes a function
  into `Except RaisedError _`.
* The module `VRPSolverEasy.src.constants` is not part of the sources;
  field-identifier spellings, error-code names and the enumerated legal
  sets below are modelled from the spec where they are needed
  (see the individual doc comments).
-/

/-- Wire values appearing in compacted request documents: numbers,
strings, booleans and integer arrays (the `incompatible_vehicles` list). -/
inductive JVal
  | num (n : Int)
  | str (s : String)
  | bool (b : Bool)
  | arr (l : List Int)
deriving DecidableEq

/-- Error-code constants passed to `PropertyError`.  The numeric values
live in the missing `constants` module; they are modelled as symbolic
constructors named after the constants.  `numbered n` embeds the two
literal codes (`3` and `12`) that `LinksDict.__setitem__` passes
directly. -/
inductive PropCode
  | integerProperty
  | numberProperty
  | stringProperty
  | booleanProperty
  | tupleProperty
  | listIntegerProperty
  | greaterOneProperty
  | greaterZeroProperty
  | lessMaxPointsIdProperty
  | lessMaxPointsProperty
  | enumStrProperty
  | enumIntProperty
  | dictProperty
  | vehicleTypeProperty
  | pointProperty
  | numbered (n : Nat)
deriving DecidableEq

/-- Embedding of the `PropertyError` exception: the offending field name
(the `prefix` argument; spellings modelled from the spec since the
`constants` module holding them is not under the sources), the error
code, and the trailing `str_list` payload (used to carry the legal value
set of an enumerated field). -/
structure PropertyError where
  field : String
  code : PropCode
  info : String
deriving DecidableEq

/-- Error codes of the `ModelError` exception, named after the
`constants` entries used at each `raise ModelError(...)` site. -/
inductive ModelErrorCode
  | minVehicleTypesError
  | minPointsError
  | minLinksError
  | addVehicleTypeError
  | delVehicleTypeError
  | addLinkError
  | delLinkError
  | addPointError
  | delPointError
  | platformError
  | bapcodError
  | loadLibError
deriving DecidableEq

/-- Every exception the embedded code can raise: a typed
`PropertyError`, a typed `ModelError`, or a plain builtin `Exception`
carrying an argument triple (the `action` setter raises the latter). -/
inductive RaisedError
  | prop (e : PropertyError)
  | exc (field : String) (code : PropCode) (info : String)
  | model (code : ModelErrorCode)
deriving DecidableEq

/-- Decidable equality for `Except`, so that concrete runs of the
embedded operations can be checked by evaluation. -/
instance exceptDecidableEq {ε α : Type} [DecidableEq ε] [DecidableEq α] :
    DecidableEq (Except ε α) := fun a b =>
  match a, b with
  | .error e1, .error e2 =>
    if h : e1 = e2 then .isTrue (by rw [h]) else .isFalse (fun hc => h (Except.error.inj hc))
  | .ok v1, .ok v2 =>
    if h : v1 = v2 then .isTrue (by rw [h]) else .isFalse (fun hc => h (Except.ok.inj hc))
  | .error _, .ok _ => .isFalse (fun hc => Except.noConfusion hc)
  | .ok _, .error _ => .isFalse (fun hc => Except.noConfusion hc)

/-- Rendering of a legal value set into the `str_list` payload of an
error, modelling Python's `str(...)` on the constant list. -/
def strList (l : List String) : String :=
  toString l

/-- Legal solver backends (`constants.SOLVERS`).  Modelled from the spec:
the `constants` module is not under the sources; the spec and the
`Parameters` docstring give exactly the backends CLP and CPLEX. -/
def SOLVERS : List String := ["CLP", "CPLEX"]

/-- Legal actions (`constants.ACTIONS`).  Modelled from the spec: the
`constants` module is not under the sources; the spec gives exactly
"solve" and "enumAllFeasibleRoutes". -/
def ACTIONS : List String := ["solve", "enumAllFeasibleRoutes"]

/-- Legal print levels (`constants.PRINT_LEVEL_LIST`).  Modelled from the
spec: the `constants` module is not under the sources; the `Parameters`
docstring gives the set (-2, -1, 0). -/
def PRINT_LEVEL_LIST : List Int := [-2, -1, 0]

/-- The `VehicleType` entity; fields in the assignment order of
`VehicleType.__init__`. -/
structure VehicleType where
  name : String
  id : Int
  capacity : Int
  fixed_cost : Int
  var_cost_dist : Int
  var_cost_time : Int
  max_number : Int
  start_point_id : Int
  end_point_id : Int
  tw_begin : Int
  tw_end : Int
deriving DecidableEq

/-- Validating construction of a `VehicleType`, running the property
setters in the order of `VehicleType.__init__` (name, id, capacity,
fixed_cost, var_cost_dist, var_cost_time, max_number, start_point_id,
end_point_id, tw_begin, tw_end); type-only setters always succeed on the
typed arguments. -/
def VehicleType.init (id start_point_id end_point_id : Int) (name : String)
    (capacity fixed_cost var_cost_dist var_cost_time max_number tw_begin tw_end : Int) :
    Except RaisedError VehicleType :=
  if id < 1 then .error (.prop ⟨"id", .greaterOneProperty, ""⟩)
  else if capacity < 0 then .error (.prop ⟨"capacity", .greaterZeroProperty, ""⟩)
  else if max_number < 0 then .error (.prop ⟨"max_number", .greaterZeroProperty, ""⟩)
  else if start_point_id < 0 then .error (.prop ⟨"start_point_id", .greaterZeroProperty, ""⟩)
  else if end_point_id < 0 then .error (.prop ⟨"end_point_id", .greaterZeroProperty, ""⟩)
  else .ok ⟨name, id, capacity, fixed_cost, var_cost_dist, var_cost_time,
            max_number, start_point_id, end_point_id, tw_begin, tw_end⟩

/-- Wire-field tags of the vehicle-type document
(`constants.VEHICLE_TYPE.*.value`). -/
inductive VTField
  | id
  | start_point_id
  | end_point_id
  | name
  | capacity
  | fixed_cost
  | var_cost_dist
  | var_cost_time
  | max_number
  | tw_begin
  | tw_end
deriving DecidableEq

/-- Compacted vehicle-type document. -/
abbrev VTDoc := List (VTField × JVal)

/-- Embedding of `VehicleType.get_vehicle_type`: id, start and end point
ids are always emitted; every other field is emitted only when it
differs from the literal the source compares against (note the source
compares `max_number` against `0`), or when `debug` is set. -/
def VehicleType.get_vehicle_type (v : VehicleType) (debug : Bool) : VTDoc :=
  [(VTField.id, JVal.num v.id),
   (VTField.start_point_id, JVal.num v.start_point_id),
   (VTField.end_point_id, JVal.num v.end_point_id)]
  ++ (if v.name ≠ "" ∨ debug = true then [(VTField.name, JVal.str v.name)] else [])
  ++ (if v.capacity ≠ 0 ∨ debug = true then [(VTField.capacity, JVal.num v.capacity)] else [])
  ++ (if v.fixed_cost ≠ 0 ∨ debug = true then [(VTField.fixed_cost, JVal.num v.fixed_cost)] else [])
  ++ (if v.var_cost_dist ≠ 0 ∨ debug = true then [(VTField.var_cost_dist, JVal.num v.var_cost_dist)] else [])
  ++ (if v.var_cost_time ≠ 0 ∨ debug = true then [(VTField.var_cost_time, JVal.num v.var_cost_time)] else [])
  ++ (if v.max_number ≠ 0 ∨ debug = true then [(VTField.max_number, JVal.num v.max_number)] else [])
  ++ (if v.tw_begin ≠ 0 ∨ debug = true then [(VTField.tw_begin, JVal.num v.tw_begin)] else [])
  ++ (if v.tw_end ≠ 0 ∨ debug = true then [(VTField.tw_end, JVal.num v.tw_end)] else [])

/-- The `Point` entity; fields in the assignment order of
`Point.__init__` (the derived `time_windows` tuple and the `_demand` /
`_capacity` aliases of `_demand_or_capacity` are not stored
separately). -/
structure Point where
  name : String
  id_customer : Int
  id : Int
  service_time : Int
  tw_begin : Int
  tw_end : Int
  penalty_or_cost : Int
  demand_or_capacity : Int
  incompatible_vehicles : List Int
deriving DecidableEq

/-- Validating construction of a `Point`, running the property setters in
the order of `Point.__init__`: name, id_customer (≥ 0 and ≤ 1022), id
(≥ 0 and ≤ 10000), service_time, tw_begin, tw_end, time_windows (a
2-tuple of the just-validated numbers, so it passes), penalty_or_cost,
then demand_or_capacity / demand / capacity (three setters checking the
same ≥ 0 condition on the same stored value), incompatible_vehicles. -/
def Point.init (id : Int) (name : String)
    (id_customer penalty_or_cost service_time tw_begin tw_end demand_or_capacity : Int)
    (incompatible_vehicles : List Int) : Except RaisedError Point :=
  if id_customer < 0 then .error (.prop ⟨"id_customer", .greaterZeroProperty, ""⟩)
  else if id_customer > 1022 then .error (.prop ⟨"id_customer", .lessMaxPointsProperty, ""⟩)
  else if id < 0 then .error (.prop ⟨"id", .greaterZeroProperty, ""⟩)
  else if id > 10000 then .error (.prop ⟨"id", .lessMaxPointsIdProperty, ""⟩)
  else if demand_or_capacity < 0 then
    .error (.prop ⟨"demand_or_capacity", .greaterZeroProperty, ""⟩)
  else .ok ⟨name, id_customer, id, service_time, tw_begin, tw_end,
            penalty_or_cost, demand_or_capacity, incompatible_vehicles⟩

/-- Embedding of `Depot.__init__`: it forwards to the `Point`
constructor with `id_customer` hard-coded to `-1` (and the depot
readings `cost` / `capacity` of the two overloaded fields). -/
def Depot.init (id : Int) (name : String)
    (cost service_time tw_begin tw_end capacity : Int)
    (incompatible_vehicles : List Int) : Except RaisedError Point :=
  Point.init id name (-1) cost service_time tw_begin tw_end capacity incompatible_vehicles

/-- Wire-field tags of the point document (`constants.POINT.*.value`;
the `id` key is the literal `"id"` in the source). -/
inductive PField
  | id
  | name
  | id_customer
  | service_time
  | tw_begin
  | tw_end
  | penalty_or_cost
  | demand_or_capacity
  | incompatible_vehicles
deriving DecidableEq

/-- Compacted point document. -/
abbrev PDoc := List (PField × JVal)

/-- Embedding of `Point.get_point`: `id` is always emitted; every other
field only when it differs from its default, or when `debug` is set. -/
def Point.get_point (p : Point) (debug : Bool) : PDoc :=
  [(PField.id, JVal.num p.id)]
  ++ (if p.name ≠ "" ∨ debug = true then [(PField.name, JVal.str p.name)] else [])
  ++ (if p.id_customer ≠ 0 ∨ debug = true then [(PField.id_customer, JVal.num p.id_customer)] else [])
  ++ (if p.service_time ≠ 0 ∨ debug = true then [(PField.service_time, JVal.num p.service_time)] else [])
  ++ (if p.tw_begin ≠ 0 ∨ debug = true then [(PField.tw_begin, JVal.num p.tw_begin)] else [])
  ++ (if p.tw_end ≠ 0 ∨ debug = true then [(PField.tw_end, JVal.num p.tw_end)] else [])
  ++ (if p.penalty_or_cost ≠ 0 ∨ debug = true then [(PField.penalty_or_cost, JVal.num p.penalty_or_cost)] else [])
  ++ (if p.demand_or_capacity ≠ 0 ∨ debug = true then [(PField.demand_or_capacity, JVal.num p.demand_or_capacity)] else [])
  ++ (if p.incompatible_vehicles ≠ [] ∨ debug = true then [(PField.incompatible_vehicles, JVal.arr p.incompatible_vehicles)] else [])

/-- The `Link` entity; fields in the assignment order of
`Link.__init__`. -/
structure Link where
  name : String
  is_directed : Bool
  start_point_id : Int
  end_point_id : Int
  distance : Int
  time : Int
  fixed_cost : Int
deriving DecidableEq

/-- Validating construction of a `Link`, running the property setters in
the order of `Link.__init__`. -/
def Link.init (name : String) (is_directed : Bool)
    (start_point_id end_point_id distance time fixed_cost : Int) :
    Except RaisedError Link :=
  if start_point_id < 0 then .error (.prop ⟨"start_point_id", .greaterZeroProperty, ""⟩)
  else if end_point_id < 0 then .error (.prop ⟨"end_point_id", .greaterZeroProperty, ""⟩)
  else if distance < 0 then .error (.prop ⟨"distance", .greaterZeroProperty, ""⟩)
  else if time < 0 then .error (.prop ⟨"time", .greaterZeroProperty, ""⟩)
  else .ok ⟨name, is_directed, start_point_id, end_point_id, distance, time, fixed_cost⟩

/-- Wire-field tags of the link document (`constants.LINK.*.value`). -/
inductive LField
  | start_point_id
  | end_point_id
  | name
  | is_directed
  | distance
  | time
  | fixed_cost
deriving DecidableEq

/-- Compacted link document. -/
abbrev LDoc := List (LField × JVal)

/-- Embedding of `Link.get_link`: start and end point ids are always
emitted; every other field only when it differs from its default, or
when `debug` is set. -/
def Link.get_link (l : Link) (debug : Bool) : LDoc :=
  [(LField.start_point_id, JVal.num l.start_point_id),
   (LField.end_point_id, JVal.num l.end_point_id)]
  ++ (if l.name ≠ "" ∨ debug = true then [(LField.name, JVal.str l.name)] else [])
  ++ (if l.is_directed = true ∨ debug = true then [(LField.is_directed, JVal.bool l.is_directed)] else [])
  ++ (if l.distance ≠ 0 ∨ debug = true then [(LField.distance, JVal.num l.distance)] else [])
  ++ (if l.time ≠ 0 ∨ debug = true then [(LField.time, JVal.num l.time)] else [])
  ++ (if l.fixed_cost ≠ 0 ∨ debug = true then [(LField.fixed_cost, JVal.num l.fixed_cost)] else [])

/-- The `Parameters` entity; fields in the assignment order of
`Parameters.__init__`. -/
structure Parameters where
  time_limit : Int
  upper_bound : Int
  heuristic_used : Bool
  time_limit_heuristic : Int
  config_file : String
  solver_name : String
  print_level : Int
  action : String
  cplex_path : String
deriving DecidableEq

/-- Embedding of the `Parameters.solver_name` setter: membership in
`SOLVERS` is enforced with a `PropertyError` carrying the field name,
the enum code and the rendered legal set. -/
def Parameters.setSolverName (p : Parameters) (solver_name : String) :
    Except RaisedError Parameters :=
  if solver_name ∉ SOLVERS then
    .error (.prop ⟨"solver_name", .enumStrProperty, strList SOLVERS⟩)
  else .ok { p with solver_name := solver_name }

/-- Embedding of the `Parameters.print_level` setter. -/
def Parameters.setPrintLevel (p : Parameters) (print_level : Int) :
    Except RaisedError Parameters :=
  if print_level ∉ PRINT_LEVEL_LIST then
    .error (.prop ⟨"print_level", .enumIntProperty, toString PRINT_LEVEL_LIST⟩)
  else .ok { p with print_level := print_level }

/-- Embedding of the `Parameters.action` setter: on a value outside
`ACTIONS` the source executes `raise Exception(field, code, legal-set)`
— a plain builtin exception, not a `PropertyError`. -/
def Parameters.setAction (p : Parameters) (action : String) :
    Except RaisedError Parameters :=
  if action ∉ ACTIONS then
    .error (.exc "action" .enumStrProperty (strList ACTIONS))
  else .ok { p with action := action }

/-- Validating construction of `Parameters`, running the property
setters in the order of `Parameters.__init__`. -/
def Parameters.init (time_limit upper_bound : Int) (heuristic_used : Bool)
    (time_limit_heuristic : Int) (config_file solver_name : String)
    (print_level : Int) (action cplex_path : String) :
    Except RaisedError Parameters :=
  if time_limit < 0 then .error (.prop ⟨"time_limit", .greaterZeroProperty, ""⟩)
  else if time_limit_heuristic < 0 then
    .error (.prop ⟨"time_limit_heuristic", .greaterZeroProperty, ""⟩)
  else if solver_name ∉ SOLVERS then
    .error (.prop ⟨"solver_name", .enumStrProperty, strList SOLVERS⟩)
  else if print_level ∉ PRINT_LEVEL_LIST then
    .error (.prop ⟨"print_level", .enumIntProperty, toString PRINT_LEVEL_LIST⟩)
  else if action ∉ ACTIONS then
    .error (.exc "action" .enumStrProperty (strList ACTIONS))
  else .ok ⟨time_limit, upper_bound, heuristic_used, time_limit_heuristic,
            config_file, solver_name, print_level, action, cplex_path⟩

/-- The default-constructed `Parameters()` value, from the constructor
defaults of `Parameters.__init__`. -/
def defaultParameters : Parameters :=
  ⟨300, 1000000, false, 20, "", "CLP", -1, "solve", ""⟩

/-- Wire-field tags of the parameters document
(`constants.PARAMETERS.*.value`). -/
inductive ParamField
  | time_limit
  | action
  | upper_bound
  | heuristic_used
  | time_limit_heuristic
  | config_file
  | solver_name
  | print_level
  | cplex_path
deriving DecidableEq

/-- Compacted parameters document. -/
abbrev ParamDoc := List (ParamField × JVal)

/-- Embedding of `Parameters.get_parameters`: `time_limit` and `action`
are always emitted; `cplex_path` is never emitted; every other field
only when it differs from its default, or when `debug` is set. -/
def Parameters.get_parameters (q : Parameters) (debug : Bool) : ParamDoc :=
  [(ParamField.time_limit, JVal.num q.time_limit),
   (ParamField.action, JVal.str q.action)]
  ++ (if q.upper_bound ≠ 1000000 ∨ debug = true then [(ParamField.upper_bound, JVal.num q.upper_bound)] else [])
  ++ (if q.heuristic_used = true ∨ debug = true then [(ParamField.heuristic_used, JVal.bool q.heuristic_used)] else [])
  ++ (if q.time_limit_heuristic ≠ 20 ∨ debug = true then [(ParamField.time_limit_heuristic, JVal.num q.time_limit_heuristic)] else [])
  ++ (if q.config_file ≠ "" ∨ debug = true then [(ParamField.config_file, JVal.str q.config_file)] else [])
  ++ (if q.solver_name ≠ "CLP" ∨ debug = true then [(ParamField.solver_name, JVal.str q.solver_name)] else [])
  ++ (if q.print_level ≠ -1 ∨ debug = true then [(ParamField.print_level, JVal.num q.print_level)] else [])

/-- Python `dict` assignment semantics on an insertion-ordered
association list: an existing key keeps its position and gets the new
value; a fresh key is appended at the end. -/
def listSet {κ α : Type} [DecidableEq κ] : List (κ × α) → κ → α → List (κ × α)
  | [], k, v => [(k, v)]
  | (k0, v0) :: rest, k, v =>
    if k0 = k then (k, v) :: rest else (k0, v0) :: listSet rest k v

/-- Key membership of an insertion-ordered association list (Python
`key in dict`). -/
def containsKey {κ α : Type} [DecidableEq κ] (l : List (κ × α)) (k : κ) : Bool :=
  l.any (fun p => p.1 = k)

/-- The vehicle-type registry: insertion-ordered map from id to
`VehicleType`. -/
abbrev VehicleTypesDict := List (Int × VehicleType)

/-- Embedding of `VehicleTypesDict.__setitem__`: the key / value type
checks are discharged by the Lean types; the value's self-reported id
must equal the insertion key; then plain `dict` assignment runs (there
is no duplicate-key check here). -/
def VehicleTypesDict.setItem (d : VehicleTypesDict) (key : Int) (value : VehicleType) :
    Except RaisedError VehicleTypesDict :=
  if value.id ≠ key then .error (.prop ⟨"", .dictProperty, ""⟩)
  else .ok (listSet d key value)

/-- Embedding of `VehicleTypesDict.values`: fails on an empty registry,
otherwise maps the compaction accessor over the stored values in
insertion order. -/
def VehicleTypesDict.values (d : VehicleTypesDict) (debug : Bool) :
    Except RaisedError (List VTDoc) :=
  if d.length = 0 then .error (.model .minVehicleTypesError)
  else .ok (d.map (fun p => p.2.get_vehicle_type debug))

/-- The point registry: insertion-ordered map from id to `Point`. -/
abbrev PointsDict := List (Int × Point)

/-- Embedding of `PointsDict.__setitem__`: after the type checks, the
value's self-reported id must equal the insertion key, and
`len(dict) + 1 > 1022` must not hold (the capacity test runs on the
pre-assignment length, even when the key is already present). -/
def PointsDict.setItem (d : PointsDict) (key : Int) (value : Point) :
    Except RaisedError PointsDict :=
  if value.id ≠ key then .error (.prop ⟨"", .dictProperty, ""⟩)
  else if d.length + 1 > 1022 then
    .error (.prop ⟨"nb_points", .lessMaxPointsProperty, ""⟩)
  else .ok (listSet d key value)

/-- Embedding of `PointsDict.values`. -/
def PointsDict.values (d : PointsDict) (debug : Bool) :
    Except RaisedError (List PDoc) :=
  if d.length = 0 then .error (.model .minPointsError)
  else .ok (d.map (fun p => p.2.get_point debug))

/-- The link registry: insertion-ordered map from name to `Link`. -/
abbrev LinksDict := List (String × Link)

/-- Embedding of `LinksDict.__setitem__` (the source passes the literal
codes `3` and `12` for the key / value type checks, discharged here by
the Lean types); the value's self-reported name must equal the
insertion key. -/
def LinksDict.setItem (d : LinksDict) (key : String) (value : Link) :
    Except RaisedError LinksDict :=
  if value.name ≠ key then .error (.prop ⟨"", .dictProperty, ""⟩)
  else .ok (listSet d key value)

/-- Embedding of `LinksDict.values`. -/
def LinksDict.values (d : LinksDict) (debug : Bool) :
    Except RaisedError (List LDoc) :=
  if d.length = 0 then .error (.model .minLinksError)
  else .ok (d.map (fun p => p.2.get_link debug))

/-- The model builder (`CreateModel`): one registry of each kind plus
the parameters (the cached json text, output buffer and solution slots
are outputs of other operations and are not part of the builder
state needed by the claims). -/
structure CreateModel where
  vehicle_types : VehicleTypesDict
  points : PointsDict
  links : LinksDict
  parameters : Parameters
deriving DecidableEq

/-- The freshly constructed model builder. -/
def CreateModel.init : CreateModel :=
  ⟨[], [], [], defaultParameters⟩

/-- Embedding of `CreateModel.add_vehicle_type`: duplicate id fails with
a `ModelError`; otherwise the entity is constructed (validating) and
stored through the registry assignment. -/
def CreateModel.add_vehicle_type (m : CreateModel)
    (id start_point_id end_point_id : Int) (name : String)
    (capacity fixed_cost var_cost_dist var_cost_time max_number tw_begin tw_end : Int) :
    Except RaisedError CreateModel :=
  if containsKey m.vehicle_types id then .error (.model .addVehicleTypeError)
  else
    match VehicleType.init id start_point_id end_point_id name capacity fixed_cost
        var_cost_dist var_cost_time max_number tw_begin tw_end with
    | .error e => .error e
    | .ok vt =>
      match VehicleTypesDict.setItem m.vehicle_types id vt with
      | .error e => .error e
      | .ok d => .ok { m with vehicle_types := d }

/-- Embedding of `CreateModel.add_link`. -/
def CreateModel.add_link (m : CreateModel) (name : String) (is_directed : Bool)
    (start_point_id end_point_id distance time fixed_cost : Int) :
    Except RaisedError CreateModel :=
  if containsKey m.links name then .error (.model .addLinkError)
  else
    match Link.init name is_directed start_point_id end_point_id distance time fixed_cost with
    | .error e => .error e
    | .ok lk =>
      match LinksDict.setItem m.links name lk with
      | .error e => .error e
      | .ok d => .ok { m with links := d }

/-- Embedding of `CreateModel.add_point`: duplicate id fails with a
`ModelError`; otherwise the point is constructed (validating, note the
argument reordering into `Point.__init__`) and stored through the
registry assignment. -/
def CreateModel.add_point (m : CreateModel) (id : Int) (name : String)
    (id_customer service_time penalty_or_cost tw_begin tw_end demand_or_capacity : Int)
    (incompatible_vehicles : List Int) : Except RaisedError CreateModel :=
  if containsKey m.points id then .error (.model .addPointError)
  else
    match Point.init id name id_customer penalty_or_cost service_time tw_begin tw_end
        demand_or_capacity incompatible_vehicles with
    | .error e => .error e
    | .ok pt =>
      match PointsDict.setItem m.points id pt with
      | .error e => .error e
      | .ok d => .ok { m with points := d }

/-- Embedding of `CreateModel.add_depot`: a duplicate-id check, then
the generic point operation with `id_customer` fixed at 0 and the cost /
capacity readings of the overloaded fields. -/
def CreateModel.add_depot (m : CreateModel) (id : Int) (name : String)
    (service_time cost tw_begin tw_end capacity : Int)
    (incompatible_vehicles : List Int) : Except RaisedError CreateModel :=
  if containsKey m.points id then .error (.model .addPointError)
  else m.add_point id name 0 service_time cost tw_begin tw_end capacity incompatible_vehicles

/-- Embedding of `CreateModel.add_customer`: a duplicate-id check, then
the cross-field default derivation `id_cust = id if id_customer == 0`,
then the generic point operation. -/
def CreateModel.add_customer (m : CreateModel) (id : Int) (name : String)
    (id_customer service_time penalty tw_begin tw_end demand : Int)
    (incompatible_vehicles : List Int) : Except RaisedError CreateModel :=
  if containsKey m.points id then .error (.model .addPointError)
  else
    let id_cust := if id_customer = 0 then id else id_customer
    m.add_point id name id_cust service_time penalty tw_begin tw_end demand
      incompatible_vehicles

/-- The serialized request document: the four named members of the wire
object, each holding the compacted field sets. -/
structure RequestDoc where
  points : List PDoc
  vehicle_types : List VTDoc
  links : List LDoc
  parameters : ParamDoc
deriving DecidableEq

/-- Embedding of `CreateModel.set_json`: the dict literal passed to
`json.dumps` evaluates `points.values()`, `vehicle_types.values()`,
`links.values()` and `get_parameters()` in that order, so an empty
registry aborts with its `ModelError` in that precedence. -/
def CreateModel.set_json (m : CreateModel) : Except RaisedError RequestDoc :=
  match PointsDict.values m.points false with
  | .error e => .error e
  | .ok ps =>
    match VehicleTypesDict.values m.vehicle_types false with
    | .error e => .error e
    | .ok vs =>
      match LinksDict.values m.links false with
      | .error e => .error e
      | .ok ls => .ok ⟨ps, vs, ls, m.parameters.get_parameters false⟩

/-- One visited-point object of a route in the response document, with
the five per-visit members the parser reads. -/
structure VisitDoc where
  point_id : Int
  point_name : String
  load : Int
  time : Int
  incoming_arc_name : String
deriving DecidableEq

/-- One route object of the response document. -/
structure RouteDoc where
  vehicle_type_id : Int
  route_cost : Int
  visited_points : List VisitDoc
deriving DecidableEq

/-- The `Statistics` member of the response document, with the six
fields the parser reads. -/
structure StatisticsDoc where
  solution_time : Int
  solution_value : Int
  best_lb : Int
  root_lb : Int
  root_time : Int
  nb_branch_and_bound_nodes : Int
deriving DecidableEq

/-- A parsed response document: the `Status` member (code and message),
the `Statistics` member and the `Solution` route list. -/
structure ResponseDoc where
  statusCode : Int
  statusMessage : String
  statistics : StatisticsDoc
  solution : List RouteDoc
deriving DecidableEq

/-- The `Statistics` result object: `Statistics()` on an empty input
sets none of its private fields (`empty`); on a statistics document it
stores all six (`filled`). -/
inductive Statistics
  | empty
  | filled (d : StatisticsDoc)
deriving DecidableEq

/-- Accessing `solution_time` on a `Statistics` whose constructor ran on
the empty input raises `AttributeError` (the private field was never
set). -/
def Statistics.solution_time : Statistics → Except String Int
  | .empty => .error "AttributeError"
  | .filled d => .ok d.solution_time

/-- Accessor for `solution_value`; see `Statistics.solution_time`. -/
def Statistics.solution_value : Statistics → Except String Int
  | .empty => .error "AttributeError"
  | .filled d => .ok d.solution_value

/-- Accessor for `best_lb`; see `Statistics.solution_time`. -/
def Statistics.best_lb : Statistics → Except String Int
  | .empty => .error "AttributeError"
  | .filled d => .ok d.best_lb

/-- Accessor for `root_lb`; see `Statistics.solution_time`. -/
def Statistics.root_lb : Statistics → Except String Int
  | .empty => .error "AttributeError"
  | .filled d => .ok d.root_lb

/-- Accessor for `root_time`; see `Statistics.solution_time`. -/
def Statistics.root_time : Statistics → Except String Int
  | .empty => .error "AttributeError"
  | .filled d => .ok d.root_time

/-- Accessor for `nb_branch_and_bound_nodes`; see
`Statistics.solution_time`. -/
def Statistics.nb_branch_and_bound_nodes : Statistics → Except String Int
  | .empty => .error "AttributeError"
  | .filled d => .ok d.nb_branch_and_bound_nodes

/-- The parsed `Route` result object: the raw document plus the five
parallel per-visit sequences. -/
structure Route where
  route : RouteDoc
  vehicle_type_id : Int
  route_cost : Int
  point_ids : List Int
  point_names : List String
  cap_consumption : List Int
  time_consumption : List Int
  incoming_arc_names : List String
deriving DecidableEq

/-- Embedding of `Route.__init__`: one pass over the ordered visit list
appends each member of every visit to its sequence (rendered as five
`map`s over the same list). -/
def Route.init (j : RouteDoc) : Route :=
  ⟨j, j.vehicle_type_id, j.route_cost,
   j.visited_points.map VisitDoc.point_id,
   j.visited_points.map VisitDoc.point_name,
   j.visited_points.map VisitDoc.load,
   j.visited_points.map VisitDoc.time,
   j.visited_points.map VisitDoc.incoming_arc_name⟩

/-- The `Solution` result aggregate. -/
structure Solution where
  routes : List Route
  statistics : Statistics
  status : Int
  message : String
deriving DecidableEq

/-- Embedding of `Solution.__init__`: `none` models the empty-string
input (the default `Solution()`); on a document, the status and message
are extracted unconditionally, `Statistics` is parsed only for
`2 < code < 6`, and the route list is parsed for `2 < code < 6` or
`code == 8` (the source's extra `len(...) > 0` guard is subsumed by
mapping over the list). -/
def Solution.init : Option ResponseDoc → Solution
  | none => ⟨[], .empty, 0, ""⟩
  | some j =>
    let stats := if 2 < j.statusCode ∧ j.statusCode < 6
      then Statistics.filled j.statistics else .empty
    let routes := if (2 < j.statusCode ∧ j.statusCode < 6) ∨ j.statusCode = 8
      then j.solution.map Route.init else []
    ⟨routes, stats, j.statusCode, j.statusMessage⟩

/-- Path concatenation used when building library candidate paths
(`os.path.join` with plain names). -/
def pathJoin (a b : String) : String :=
  a ++ "/" ++ b

/-- The ordered candidate list of `CreateModel.solve` for locating the
engine library: (1) alongside the binding module, (2) under the
platform-named subdirectory of the dependency-library root, (3) the
bare library name for the system loader. -/
def libCandidates (moduleDir libRoot platformName libName : String) : List String :=
  [pathJoin moduleDir libName,
   pathJoin (pathJoin libRoot platformName) libName,
   libName]

/-- The candidate loop of `CreateModel.solve`: try each candidate in
order against the loader (`loads` abstracts whether `ctypes.CDLL`
succeeds on a path), stopping at the first success. -/
def tryLoadAll (loads : String → Bool) : List String → Option String
  | [] => none
  | c :: rest => if loads c then some c else tryLoadAll loads rest

/-- Library discovery of `CreateModel.solve`: the first loadable
candidate wins; exhausting the list raises the single
`ModelError(LOAD_LIB_ERROR)`. -/
def discoverLibrary (loads : String → Bool) (cands : List String) :
    Except RaisedError String :=
  match tryLoadAll loads cands with
  | some c => .ok c
  | none => .error (.model .loadLibError)

/-- Events observable at the native boundary during the invocation
block of `CreateModel.solve` (lines 1634-1640): the call into
`solveModel`, the return of the response buffer pointer, a call to
`freeMemory`, and the re-raise of `ModelError(BAPCOD_ERROR)` from the
`except` clause. -/
inductive NativeEvent
  | solveCalled
  | bufferReturned
  | freeMemoryCalled
  | modelErrorRaised
deriving DecidableEq

/-- Trace semantics of the `try` block of `CreateModel.solve`: the body
runs `output = solve(input)`, the buffer copy, the `Solution(...)`
parse, then `free_memory(output)` in sequence; any exception jumps
straight to the `except BaseException` clause, which raises
`ModelError` — so a copy or parse failure skips the `free_memory`
call. -/
def solveInvocation (solveRaises copyRaises parseRaises : Bool) : List NativeEvent :=
  if solveRaises then [.solveCalled, .modelErrorRaised]
  else if copyRaises then [.solveCalled, .bufferReturned, .modelErrorRaised]
  else if parseRaises then [.solveCalled, .bufferReturned, .modelErrorRaised]
  else [.solveCalled, .bufferReturned, .freeMemoryCalled]

/-- C9: for every argument list, constructing a point through the
`Depot` class raises a validation error and never produces an object —
the constructor hard-codes `-1` as `id_customer` and the `id_customer`
setter rejects every negative value — while the model builder's
`add_depot`, which uses `id_customer = 0`, is unaffected (shown on a
concrete successful call). -/
theorem c9_depot_never_constructed :
  (∀ (id : Int) (name : String) (cost service_time tw_begin tw_end capacity : Int)
      (incompatible_vehicles : List Int),
    Depot.init id name cost service_time tw_begin tw_end capacity incompatible_vehicles
      = .error (.prop ⟨"id_customer", .greaterZeroProperty, ""⟩))
  ∧ CreateModel.init.add_depot 0 "depot" 0 0 0 0 0 []
      = .ok ⟨[], [(0, ⟨"depot", 0, 0, 0, 0, 0, 0, 0, []⟩)], [], defaultParameters⟩ := by
  constructor
  · intro id name cost service_time tw_begin tw_end capacity incompatible_vehicles
    rfl
  · decide

/-- C10: every `Solution` whose status code lies outside the solved
range 3..5 (the default `Solution()` included) carries the empty
`Statistics`, on which each of the six getters raises `AttributeError`
instead of returning a default value. -/
theorem c10_unsolved_statistics_attribute_error :
  ∀ od : Option ResponseDoc,
    ¬(2 < (Solution.init od).status ∧ (Solution.init od).status < 6) →
      (Solution.init od).statistics = Statistics.empty
      ∧ (Solution.init od).statistics.solution_time = .error "AttributeError"
      ∧ (Solution.init od).statistics.solution_value = .error "AttributeError"
      ∧ (Solution.init od).statistics.best_lb = .error "AttributeError"
      ∧ (Solution.init od).statistics.root_lb = .error "AttributeError"
      ∧ (Solution.init od).statistics.root_time = .error "AttributeError"
      ∧ (Solution.init od).statistics.nb_branch_and_bound_nodes = .error "AttributeError" := by
  intro od h
  have hempty : (Solution.init od).statistics = Statistics.empty := by
    match od with
    | none => rfl
    | some j =>
      have hc : ¬(2 < j.statusCode ∧ j.statusCode < 6) := h
      simp [Solution.init, hc]
  refine ⟨hempty, ?_, ?_, ?_, ?_, ?_, ?_⟩ <;> rw [hempty] <;> rfl

/-- C10 witness: the default `Solution()` (status 0) has the empty
statistics object. -/
theorem c10_witness :
  (Solution.init none).statistics = Statistics.empty :=
  (c10_unsolved_statistics_attribute_error none (by decide)).1

/-- C3: on the exit path where the parse of the response fails after the
engine returned the buffer pointer, `freeMemory` is called zero times,
not once (the release call sits inside the `try` body after the parse,
and the `except` clause re-raises without releasing); on the success
path it is called exactly once.  This evidences the leak the spec's
scoped-release requirement forbids. -/
theorem c3_free_memory_skipped_on_parse_failure :
  NativeEvent.bufferReturned ∈ solveInvocation false false true
  ∧ (solveInvocation false false true).count NativeEvent.freeMemoryCalled = 0
  ∧ NativeEvent.modelErrorRaised ∈ solveInvocation false false true
  ∧ (solveInvocation false false false).count NativeEvent.freeMemoryCalled = 1 := by
  decide

/-- C8: assigning a value outside the legal set to `Parameters.action`
raises a plain builtin `Exception` carrying the argument triple, not the
typed `PropertyError` that the sibling enumerated setter
`solver_name` raises. -/
theorem c8_action_setter_raises_plain_exception :
  Parameters.setAction defaultParameters "stop"
      = .error (.exc "action" .enumStrProperty (strList ACTIONS))
  ∧ Parameters.setSolverName defaultParameters "GUROBI"
      = .error (.prop ⟨"solver_name", .enumStrProperty, strList SOLVERS⟩)
  ∧ ∀ e : PropertyError,
      Parameters.setAction defaultParameters "stop" ≠ .error (.prop e) := by
  refine ⟨by decide, by decide, ?_⟩
  intro e h
  rw [show Parameters.setAction defaultParameters "stop"
        = .error (.exc "action" .enumStrProperty (strList ACTIONS)) from by decide] at h
  exact RaisedError.noConfusion (Except.error.inj h)

/-- C7: library discovery tries the three candidates in the documented
fixed order — alongside the binding module, under the platform-named
subdirectory of the dependency-library root, then the bare name — and
stops at the first one that loads; when every candidate fails the result
is the single `ModelError(LOAD_LIB_ERROR)`, not a per-candidate error
list. -/
theorem c7_library_discovery_order :
  ∀ (loads : String → Bool) (moduleDir libRoot platformName libName : String),
    (loads (pathJoin moduleDir libName) = true →
      discoverLibrary loads (libCandidates moduleDir libRoot platformName libName)
        = .ok (pathJoin moduleDir libName))
    ∧ (loads (pathJoin moduleDir libName) = false →
       loads (pathJoin (pathJoin libRoot platformName) libName) = true →
      discoverLibrary loads (libCandidates moduleDir libRoot platformName libName)
        = .ok (pathJoin (pathJoin libRoot platformName) libName))
    ∧ (loads (pathJoin moduleDir libName) = false →
       loads (pathJoin (pathJoin libRoot platformName) libName) = false →
       loads libName = true →
      discoverLibrary loads (libCandidates moduleDir libRoot platformName libName)
        = .ok libName)
    ∧ (loads (pathJoin moduleDir libName) = false →
       loads (pathJoin (pathJoin libRoot platformName) libName) = false →
       loads libName = false →
      discoverLibrary loads (libCandidates moduleDir libRoot platformName libName)
        = .error (.model .loadLibError)) := by
  intro loads moduleDir libRoot platformName libName
  refine ⟨?_, ?_, ?_, ?_⟩
  · intro h1
    simp [discoverLibrary, libCandidates, tryLoadAll, h1]
  · intro h1 h2
    simp [discoverLibrary, libCandidates, tryLoadAll, h1, h2]
  · intro h1 h2 h3
    simp [discoverLibrary, libCandidates, tryLoadAll, h1, h2, h3]
  · intro h1 h2 h3
    simp [discoverLibrary, libCandidates, tryLoadAll, h1, h2, h3]

/-- C7 witness: with a loader that accepts nothing the discovery returns
the single library-not-found error; with one that accepts everything it
returns the first candidate. -/
theorem c7_witness :
  discoverLibrary (fun _ => false) (libCandidates "m" "r" "p" "n")
      = .error (.model .loadLibError)
  ∧ discoverLibrary (fun _ => true) (libCandidates "m" "r" "p" "n")
      = .ok (pathJoin "m" "n") :=
  ⟨(c7_library_discovery_order (fun _ => false) "m" "r" "p" "n").2.2.2 rfl rfl rfl,
   (c7_library_discovery_order (fun _ => true) "m" "r" "p" "n").1 rfl⟩

/-- A response document with the distinguished feasible-routes-enumerated
status code 8 and one route. -/
def respCode8 : ResponseDoc :=
  ⟨8, "enumeration finished", ⟨0, 0, 0, 0, 0, 0⟩,
   [⟨1, 0, [⟨0, "depot", 0, 0, "arc"⟩]⟩]⟩

/-- C1 counterexample: status code 8 lies outside the solved range 3..5,
yet constructing a `Solution` from a code-8 response containing one
route yields a non-empty route list — refuting "a status code outside
the solved-range yields an empty route list regardless of the rest of
the document's content". -/
theorem c1_counterexample :
  ¬(2 < respCode8.statusCode ∧ respCode8.statusCode < 6)
  ∧ (Solution.init (some respCode8)).routes ≠ [] := by
  decide

/-- Zipping a mapped list with its source pairs every image with its
preimage, in order. -/
theorem zip_map_self {α β : Type} (f : α → β) :
    ∀ l : List α, (l.map f).zip l = l.map (fun a => (f a, a))
  | [] => rfl
  | a :: t => by simp [zip_map_self f t]

/-- C1 amended: a response whose status code lies outside the solved
range 3..5 AND differs from the feasible-routes-enumerated code 8 yields
an empty statistics object and an empty route list regardless of
document content (the statistics object is empty outside 3..5 even at
code 8); a response with a solved-range status or code 8 containing N
route objects yields N `Route` values, in document order, whose five
per-visit sequences each have length equal to the number of visit
entries of the corresponding route document. -/
theorem c1_response_parsing_amended :
  ∀ j : ResponseDoc,
    (¬(2 < j.statusCode ∧ j.statusCode < 6) →
      (Solution.init (some j)).statistics = Statistics.empty)
    ∧ (¬(2 < j.statusCode ∧ j.statusCode < 6) → j.statusCode ≠ 8 →
      (Solution.init (some j)).routes = [])
    ∧ (((2 < j.statusCode ∧ j.statusCode < 6) ∨ j.statusCode = 8) →
      (Solution.init (some j)).routes.length = j.solution.length
      ∧ ∀ pr ∈ (Solution.init (some j)).routes.zip j.solution,
          pr.1.vehicle_type_id = pr.2.vehicle_type_id
          ∧ pr.1.point_ids = pr.2.visited_points.map VisitDoc.point_id
          ∧ pr.1.point_ids.length = pr.2.visited_points.length
          ∧ pr.1.point_names.length = pr.2.visited_points.length
          ∧ pr.1.cap_consumption.length = pr.2.visited_points.length
          ∧ pr.1.time_consumption.length = pr.2.visited_points.length
          ∧ pr.1.incoming_arc_names.length = pr.2.visited_points.length) := by
  intro j
  refine ⟨?_, ?_, ?_⟩
  · intro h
    simp [Solution.init, h]
  · intro h h8
    simp [Solution.init, h, h8]
  · intro h
    have hr : (Solution.init (some j)).routes = j.solution.map Route.init := by
      simp [Solution.init, h]
    refine ⟨by rw [hr, List.length_map], ?_⟩
    intro pr hpr
    rw [hr, zip_map_self] at hpr
    obtain ⟨r, hrmem, hreq⟩ := List.mem_map.mp hpr
    subst hreq
    refine ⟨rfl, rfl, ?_, ?_, ?_, ?_, ?_⟩ <;> simp [Route.init]

/-- A response document with a solved-range status code 4 and one route
of two visits. -/
def respCode4 : ResponseDoc :=
  ⟨4, "solution found", ⟨1, 2, 3, 4, 5, 6⟩,
   [⟨1, 10, [⟨0, "d", 0, 0, ""⟩, ⟨1, "c", 4, 7, "a"⟩]⟩]⟩

/-- A response document with status code 2 (outside the solved range)
whose body nevertheless carries statistics and a route. -/
def respCode2 : ResponseDoc :=
  ⟨2, "time limit reached", ⟨1, 2, 3, 4, 5, 6⟩,
   [⟨1, 10, [⟨0, "d", 0, 0, ""⟩]⟩]⟩

/-- C1 witness: the amended theorem applied at the code-4 response (one
route) and at the code-2 response (empty statistics and routes despite
the non-empty document body). -/
theorem c1_witness :
  (Solution.init (some respCode4)).routes.length = respCode4.solution.length
  ∧ (Solution.init (some respCode2)).statistics = Statistics.empty
  ∧ (Solution.init (some respCode2)).routes = [] :=
  ⟨((c1_response_parsing_amended respCode4).2.2 (Or.inl (by decide))).1,
   (c1_response_parsing_amended respCode2).1 (by decide),
   (c1_response_parsing_amended respCode2).2.1 (by decide) (by decide)⟩

/-- A valid vehicle type with id 1. -/
def vtA : VehicleType := ⟨"A", 1, 0, 0, 0, 0, 1, 0, 0, 0, 0⟩

/-- A second valid vehicle type with the same id 1. -/
def vtB : VehicleType := ⟨"B", 1, 0, 0, 0, 0, 1, 0, 0, 0, 0⟩

/-- C4 counterexample: inserting a second value under the already
present key 1 of a vehicle-type registry does not fail — the
`__setitem__` methods check key type, value type and self-key match but
have no duplicate-key check, so the assignment succeeds and
overwrites. -/
theorem c4_counterexample :
  VehicleTypesDict.setItem [(1, vtA)] 1 vtB = .ok [(1, vtB)] := by
  decide

/-- C4 amended: at the registry level, for each of the three
registries, inserting under an already present key (with matching
self-key) succeeds by overwriting in place — except that the point
registry's capacity check also rejects an overwrite once it holds 1022
entries; the duplicate-key rejection is enforced one level up by every
Model Builder add operation (`add_vehicle_type`, `add_point`,
`add_customer`, `add_depot`, `add_link`), which fails with the
corresponding `ModelError` when the key exists; for every registry,
inserting a value whose self-reported key differs from the insertion
key fails; and inserting into the point registry when it already holds
1022 entries fails. -/
theorem c4_registry_insertion_amended :
  (∀ (d : VehicleTypesDict) (k : Int) (v : VehicleType), v.id = k →
      VehicleTypesDict.setItem d k v = .ok (listSet d k v))
  ∧ (∀ (d : PointsDict) (k : Int) (v : Point), v.id = k → d.length + 1 ≤ 1022 →
      PointsDict.setItem d k v = .ok (listSet d k v))
  ∧ (∀ (d : LinksDict) (k : String) (v : Link), v.name = k →
      LinksDict.setItem d k v = .ok (listSet d k v))
  ∧ (∀ (m : CreateModel) (id start_point_id end_point_id : Int) (name : String)
        (capacity fixed_cost var_cost_dist var_cost_time max_number tw_begin tw_end : Int),
      containsKey m.vehicle_types id = true →
        m.add_vehicle_type id start_point_id end_point_id name capacity fixed_cost
            var_cost_dist var_cost_time max_number tw_begin tw_end
          = .error (.model .addVehicleTypeError))
  ∧ (∀ (m : CreateModel) (id : Int) (name : String)
        (id_customer service_time penalty_or_cost tw_begin tw_end demand_or_capacity : Int)
        (incompatible_vehicles : List Int),
      containsKey m.points id = true →
        m.add_point id name id_customer service_time penalty_or_cost tw_begin tw_end
            demand_or_capacity incompatible_vehicles
          = .error (.model .addPointError))
  ∧ (∀ (m : CreateModel) (id : Int) (name : String)
        (id_customer service_time penalty tw_begin tw_end demand : Int)
        (incompatible_vehicles : List Int),
      containsKey m.points id = true →
        m.add_customer id name id_customer service_time penalty tw_begin tw_end demand
            incompatible_vehicles
          = .error (.model .addPointError))
  ∧ (∀ (m : CreateModel) (id : Int) (name : String)
        (service_time cost tw_begin tw_end capacity : Int)
        (incompatible_vehicles : List Int),
      containsKey m.points id = true →
        m.add_depot id name service_time cost tw_begin tw_end capacity
            incompatible_vehicles
          = .error (.model .addPointError))
  ∧ (∀ (m : CreateModel) (name : String) (is_directed : Bool)
        (start_point_id end_point_id distance time fixed_cost : Int),
      containsKey m.links name = true →
        m.add_link name is_directed start_point_id end_point_id distance time fixed_cost
          = .error (.model .addLinkError))
  ∧ (∀ (d : VehicleTypesDict) (k : Int) (v : VehicleType), v.id ≠ k →
      VehicleTypesDict.setItem d k v = .error (.prop ⟨"", .dictProperty, ""⟩))
  ∧ (∀ (d : PointsDict) (k : Int) (v : Point), v.id ≠ k →
      PointsDict.setItem d k v = .error (.prop ⟨"", .dictProperty, ""⟩))
  ∧ (∀ (d : LinksDict) (k : String) (v : Link), v.name ≠ k →
      LinksDict.setItem d k v = .error (.prop ⟨"", .dictProperty, ""⟩))
  ∧ (∀ (d : PointsDict) (k : Int) (v : Point), v.id = k → 1022 ≤ d.length →
      PointsDict.setItem d k v
        = .error (.prop ⟨"nb_points", .lessMaxPointsProperty, ""⟩)) := by
  refine ⟨?_, ?_, ?_, ?_, ?_, ?_, ?_, ?_, ?_, ?_, ?_, ?_⟩
  · intro d k v h
    simp [VehicleTypesDict.setItem, h]
  · intro d k v h hlen
    rw [PointsDict.setItem, if_neg (by simp [h]), if_neg (by omega)]
  · intro d k v h
    simp [LinksDict.setItem, h]
  · intro m id s e name cap fc vd vt mn tb te h
    simp [CreateModel.add_vehicle_type, h]
  · intro m id name idc st pc tb te dc inc h
    simp [CreateModel.add_point, h]
  · intro m id name idc st pen tb te dem inc h
    simp [CreateModel.add_customer, h]
  · intro m id name st cost tb te cap inc h
    simp [CreateModel.add_depot, h]
  · intro m name dir s e dist time fc h
    simp [CreateModel.add_link, h]
  · intro d k v h
    simp [VehicleTypesDict.setItem, h]
  · intro d k v h
    simp [PointsDict.setItem, h]
  · intro d k v h
    simp [LinksDict.setItem, h]
  · intro d k v h hlen
    rw [PointsDict.setItem, if_neg (by simp [h]), if_pos (by omega)]

/-- A valid point with a given id. -/
def mkPoint (i : Int) : Point := ⟨"", 0, i, 0, 0, 0, 0, 0, []⟩

/-- A point registry filled to its 1022-entry capacity. -/
def points1022 : PointsDict :=
  (List.range 1022).map (fun (i : Nat) => ((i : Int), mkPoint (i : Int)))

/-- A model builder already holding vehicle type 1. -/
def modelWithVT1 : CreateModel := ⟨[(1, vtA)], [], [], defaultParameters⟩

/-- A model builder already holding point 0. -/
def modelWithPt0 : CreateModel := ⟨[], [(0, mkPoint 0)], [], defaultParameters⟩

/-- A valid link named L1. -/
def lkL1 : Link := ⟨"L1", false, 0, 0, 0, 0, 0⟩

/-- A second valid link also named L1. -/
def lkL1b : Link := ⟨"L1", true, 0, 0, 0, 0, 0⟩

/-- A model builder already holding link L1. -/
def modelWithL1 : CreateModel := ⟨[], [], [("L1", lkL1)], defaultParameters⟩

/-- A second valid point with id 0, to overwrite `mkPoint 0`. -/
def ptZeroB : Point := ⟨"other", 0, 0, 0, 0, 0, 0, 0, []⟩

/-- C4 witness: the amended theorem applied at concrete registries —
overwriting inserts under present keys in all three registries,
duplicate adds through every builder operation, self-key mismatches on
all three registries, and an insert into the full 1022-entry point
registry. -/
theorem c4_witness :
  VehicleTypesDict.setItem [(1, vtA)] 1 vtA = .ok (listSet [(1, vtA)] 1 vtA)
  ∧ PointsDict.setItem [(0, mkPoint 0)] 0 ptZeroB
      = .ok (listSet [(0, mkPoint 0)] 0 ptZeroB)
  ∧ LinksDict.setItem [("L1", lkL1)] "L1" lkL1b = .ok (listSet [("L1", lkL1)] "L1" lkL1b)
  ∧ modelWithVT1.add_vehicle_type 1 0 0 "" 0 0 0 0 1 0 0
      = .error (.model .addVehicleTypeError)
  ∧ modelWithPt0.add_point 0 "" 0 0 0 0 0 0 [] = .error (.model .addPointError)
  ∧ modelWithPt0.add_customer 0 "" 0 0 0 0 0 0 [] = .error (.model .addPointError)
  ∧ modelWithPt0.add_depot 0 "" 0 0 0 0 0 [] = .error (.model .addPointError)
  ∧ modelWithL1.add_link "L1" false 0 0 0 0 0 = .error (.model .addLinkError)
  ∧ VehicleTypesDict.setItem [] 2 vtA = .error (.prop ⟨"", .dictProperty, ""⟩)
  ∧ PointsDict.setItem [] 2 (mkPoint 1) = .error (.prop ⟨"", .dictProperty, ""⟩)
  ∧ LinksDict.setItem [] "L2" lkL1 = .error (.prop ⟨"", .dictProperty, ""⟩)
  ∧ PointsDict.setItem points1022 5000 (mkPoint 5000)
      = .error (.prop ⟨"nb_points", .lessMaxPointsProperty, ""⟩) := by
  obtain ⟨h1, h2, h3, h4, h5, h6, h7, h8, h9, h10, h11, h12⟩ :=
    c4_registry_insertion_amended
  exact ⟨h1 [(1, vtA)] 1 vtA (by decide),
    h2 [(0, mkPoint 0)] 0 ptZeroB (by decide) (by decide),
    h3 [("L1", lkL1)] "L1" lkL1b (by decide),
    h4 modelWithVT1 1 0 0 "" 0 0 0 0 1 0 0 (by decide),
    h5 modelWithPt0 0 "" 0 0 0 0 0 0 [] (by decide),
    h6 modelWithPt0 0 "" 0 0 0 0 0 0 [] (by decide),
    h7 modelWithPt0 0 "" 0 0 0 0 0 [] (by decide),
    h8 modelWithL1 "L1" false 0 0 0 0 0 (by decide),
    h9 [] 2 vtA (by decide),
    h10 [] 2 (mkPoint 1) (by decide),
    h11 [] "L2" lkL1 (by decide),
    h12 points1022 5000 (mkPoint 5000) (by decide)
      (by rw [points1022, List.length_map, List.length_range])⟩

/-- C5: serializing a model builder whose point, vehicle-type or link
registry is empty fails with the corresponding "must have at least one"
`ModelError` (the point check runs first, then vehicle types, then
links); with at least one entry in each registry, serialization
succeeds and the produced request document holds exactly the compacted
field sets of the supplied entities, in insertion order, plus the
compacted parameters. -/
theorem c5_set_json_cardinality :
  ∀ m : CreateModel,
    (m.points = [] → m.set_json = .error (.model .minPointsError))
    ∧ (m.points ≠ [] → m.vehicle_types = [] →
        m.set_json = .error (.model .minVehicleTypesError))
    ∧ (m.points ≠ [] → m.vehicle_types ≠ [] → m.links = [] →
        m.set_json = .error (.model .minLinksError))
    ∧ (m.points ≠ [] → m.vehicle_types ≠ [] → m.links ≠ [] →
        m.set_json = .ok ⟨m.points.map (fun p => p.2.get_point false),
                          m.vehicle_types.map (fun p => p.2.get_vehicle_type false),
                          m.links.map (fun p => p.2.get_link false),
                          m.parameters.get_parameters false⟩) := by
  intro m
  refine ⟨?_, ?_, ?_, ?_⟩
  · intro h1
    simp [CreateModel.set_json, PointsDict.values, h1]
  · intro h1 h2
    simp [CreateModel.set_json, PointsDict.values, VehicleTypesDict.values,
      List.length_eq_zero, h1, h2]
  · intro h1 h2 h3
    simp [CreateModel.set_json, PointsDict.values, VehicleTypesDict.values,
      LinksDict.values, List.length_eq_zero, h1, h2, h3]
  · intro h1 h2 h3
    simp [CreateModel.set_json, PointsDict.values, VehicleTypesDict.values,
      LinksDict.values, List.length_eq_zero, h1, h2, h3]

/-- A valid vehicle type used by the serialization witness. -/
def vt1 : VehicleType := ⟨"", 1, 10, 0, 1, 0, 3, 0, 0, 0, 0⟩

/-- A valid depot-like point used by the serialization witness. -/
def pt0 : Point := ⟨"", 0, 0, 0, 0, 0, 0, 0, []⟩

/-- A valid link used by the serialization witness. -/
def lk1 : Link := ⟨"L1", false, 0, 1, 7, 0, 0⟩

/-- A model builder holding one vehicle type, one point and one link. -/
def m1 : CreateModel := ⟨[(1, vt1)], [(0, pt0)], [("L1", lk1)], defaultParameters⟩

/-- C5 witness: the empty builder fails with the min-points error; the
one-of-each builder serializes to exactly the compacted field sets. -/
theorem c5_witness :
  CreateModel.init.set_json = .error (.model .minPointsError)
  ∧ m1.set_json = .ok ⟨[pt0.get_point false], [vt1.get_vehicle_type false],
                       [lk1.get_link false], defaultParameters.get_parameters false⟩ :=
  ⟨(c5_set_json_cardinality CreateModel.init).1 rfl,
   (c5_set_json_cardinality m1).2.2.2 (by decide) (by decide) (by decide)⟩

/-- C6 counterexample: calling `add_customer` with id 5 and the explicit
`id_customer` value 0 does not store 0 — the stored point carries
`id_customer = 5`, because an explicit 0 is indistinguishable from the
omitted default and triggers the `id_cust = id` derivation. -/
theorem c6_counterexample :
  CreateModel.init.add_customer 5 "" 0 0 0 0 0 0 []
      = .ok ⟨[], [(5, ⟨"", 5, 5, 0, 0, 0, 0, 0, []⟩)], [], defaultParameters⟩
  ∧ (5 : Int) ≠ 0 := by
  decide

/-- C6 amended: `add_customer` with `id_customer = 0` — whether omitted
(the default) or passed explicitly, the binding cannot distinguish the
two — stores a point whose `id_customer` equals the point's own id;
with a value in 1..1022 it stores that value; with a value above 1022
construction fails with the max-points validation error, and with a
negative value it fails with the non-negativity validation error. -/
theorem c6_add_customer_amended :
  ∀ id v : Int,
    (v = 0 → 0 ≤ id → id ≤ 1022 →
      CreateModel.init.add_customer id "" v 0 0 0 0 0 []
        = .ok ⟨[], [(id, ⟨"", id, id, 0, 0, 0, 0, 0, []⟩)], [], defaultParameters⟩)
    ∧ (1 ≤ v → v ≤ 1022 → 0 ≤ id → id ≤ 10000 →
      CreateModel.init.add_customer id "" v 0 0 0 0 0 []
        = .ok ⟨[], [(id, ⟨"", v, id, 0, 0, 0, 0, 0, []⟩)], [], defaultParameters⟩)
    ∧ (1022 < v →
      CreateModel.init.add_customer id "" v 0 0 0 0 0 []
        = .error (.prop ⟨"id_customer", .lessMaxPointsProperty, ""⟩))
    ∧ (v < 0 →
      CreateModel.init.add_customer id "" v 0 0 0 0 0 []
        = .error (.prop ⟨"id_customer", .greaterZeroProperty, ""⟩)) := by
  intro id v
  refine ⟨?_, ?_, ?_, ?_⟩
  · intro h0 h1 h2
    subst h0
    simp only [CreateModel.add_customer, CreateModel.add_point, CreateModel.init,
      containsKey, List.any_nil, Bool.false_eq_true, if_false, Point.init,
      PointsDict.setItem, listSet, List.length_nil]
    split_ifs <;> first | rfl | (exfalso; omega) | simp_all
  · intro h1 h2 h3 h4
    simp only [CreateModel.add_customer, CreateModel.add_point, CreateModel.init,
      containsKey, List.any_nil, Bool.false_eq_true, if_false, Point.init,
      PointsDict.setItem, listSet, List.length_nil]
    split_ifs <;> first | rfl | (exfalso; omega) | simp_all
  · intro h
    simp only [CreateModel.add_customer, CreateModel.add_point, CreateModel.init,
      containsKey, List.any_nil, Bool.false_eq_true, if_false, Point.init,
      PointsDict.setItem, listSet, List.length_nil]
    split_ifs <;> first | rfl | (exfalso; omega)
  · intro h
    simp only [CreateModel.add_customer, CreateModel.add_point, CreateModel.init,
      containsKey, List.any_nil, Bool.false_eq_true, if_false, Point.init,
      PointsDict.setItem, listSet, List.length_nil]
    split_ifs <;> first | rfl | (exfalso; omega)

/-- C6 witness: the amended theorem applied at concrete inputs — the
default 0 stores the id (7), an explicit 9 is stored as-is, 2000 and -1
fail with the two validation errors. -/
theorem c6_witness :
  CreateModel.init.add_customer 7 "" 0 0 0 0 0 0 []
      = .ok ⟨[], [(7, ⟨"", 7, 7, 0, 0, 0, 0, 0, []⟩)], [], defaultParameters⟩
  ∧ CreateModel.init.add_customer 3 "" 9 0 0 0 0 0 []
      = .ok ⟨[], [(3, ⟨"", 9, 3, 0, 0, 0, 0, 0, []⟩)], [], defaultParameters⟩
  ∧ CreateModel.init.add_customer 0 "" 2000 0 0 0 0 0 []
      = .error (.prop ⟨"id_customer", .lessMaxPointsProperty, ""⟩)
  ∧ CreateModel.init.add_customer 0 "" (-1) 0 0 0 0 0 []
      = .error (.prop ⟨"id_customer", .greaterZeroProperty, ""⟩) :=
  ⟨(c6_add_customer_amended 7 0).1 rfl (by decide) (by decide),
   (c6_add_customer_amended 3 9).2.1 (by decide) (by decide) (by decide) (by decide),
   (c6_add_customer_amended 0 2000).2.2.1 (by decide),
   (c6_add_customer_amended 0 (-1)).2.2.2 (by decide)⟩

/-- Mapping the first projection over a conditional singleton. -/
theorem map_fst_ite_singleton {α β : Type} (c : Prop) [Decidable c] (x : α × β) :
    (if c then [x] else []).map Prod.fst = if c then [x.1] else [] := by
  split_ifs <;> rfl

/-- Filtering a cons cell rendered as a conditional singleton followed
by the filtered tail. -/
theorem filter_cons_as_append {α : Type} (p : α → Bool) (a : α) (l : List α) :
    List.filter p (a :: l) = (if p a then [a] else []) ++ List.filter p l := by
  by_cases h : p a <;> simp [h]

/-- The vehicle-type fields that `get_vehicle_type` emits
unconditionally. -/
def vtMandatoryFields : List VTField :=
  [.id, .start_point_id, .end_point_id]

/-- The vehicle-type fields subject to compaction, in emission order. -/
def vtOptionalFields : List VTField :=
  [.name, .capacity, .fixed_cost, .var_cost_dist, .var_cost_time,
   .max_number, .tw_begin, .tw_end]

/-- The current wire value of each vehicle-type field. -/
def vtFieldVal (v : VehicleType) : VTField → JVal
  | .id => .num v.id
  | .start_point_id => .num v.start_point_id
  | .end_point_id => .num v.end_point_id
  | .name => .str v.name
  | .capacity => .num v.capacity
  | .fixed_cost => .num v.fixed_cost
  | .var_cost_dist => .num v.var_cost_dist
  | .var_cost_time => .num v.var_cost_time
  | .max_number => .num v.max_number
  | .tw_begin => .num v.tw_begin
  | .tw_end => .num v.tw_end

/-- Spec-side compaction baselines of the optional vehicle-type fields
(the claim's "documented default"): a field is emitted exactly when its
value differs from this baseline.  Every baseline equals the documented
constructor default except `max_number`, whose baseline is 0 while its
constructor default is 1.  Entries for the mandatory fields are unused. -/
def vtCompactionBaseline : VTField → JVal
  | .name => .str ""
  | .max_number => .num 0
  | _ => .num 0

/-- The point field that `get_point` emits unconditionally. -/
def pMandatoryFields : List PField :=
  [.id]

/-- The point fields subject to compaction, in emission order. -/
def pOptionalFields : List PField :=
  [.name, .id_customer, .service_time, .tw_begin, .tw_end,
   .penalty_or_cost, .demand_or_capacity, .incompatible_vehicles]

/-- The current wire value of each point field. -/
def pFieldVal (p : Point) : PField → JVal
  | .id => .num p.id
  | .name => .str p.name
  | .id_customer => .num p.id_customer
  | .service_time => .num p.service_time
  | .tw_begin => .num p.tw_begin
  | .tw_end => .num p.tw_end
  | .penalty_or_cost => .num p.penalty_or_cost
  | .demand_or_capacity => .num p.demand_or_capacity
  | .incompatible_vehicles => .arr p.incompatible_vehicles

/-- Spec-side compaction baselines of the optional point fields; each
equals the documented constructor default.  The entry for the mandatory
`id` field is unused. -/
def pCompactionBaseline : PField → JVal
  | .name => .str ""
  | .incompatible_vehicles => .arr []
  | _ => .num 0

/-- The link fields that `get_link` emits unconditionally. -/
def lMandatoryFields : List LField :=
  [.start_point_id, .end_point_id]

/-- The link fields subject to compaction, in emission order. -/
def lOptionalFields : List LField :=
  [.name, .is_directed, .distance, .time, .fixed_cost]

/-- The current wire value of each link field. -/
def lFieldVal (l : Link) : LField → JVal
  | .start_point_id => .num l.start_point_id
  | .end_point_id => .num l.end_point_id
  | .name => .str l.name
  | .is_directed => .bool l.is_directed
  | .distance => .num l.distance
  | .time => .num l.time
  | .fixed_cost => .num l.fixed_cost

/-- Spec-side compaction baselines of the optional link fields; each
equals the documented constructor default.  Entries for the mandatory
start / end point ids are unused (those two are always emitted although
their constructor defaults are 0). -/
def lCompactionBaseline : LField → JVal
  | .name => .str ""
  | .is_directed => .bool false
  | _ => .num 0

/-- The parameters fields that `get_parameters` emits unconditionally
(although both have documented defaults: 300 and "solve"). -/
def prmMandatoryFields : List ParamField :=
  [.time_limit, .action]

/-- The parameters fields subject to compaction, in emission order
(`cplex_path` is absent: it is never emitted). -/
def prmOptionalFields : List ParamField :=
  [.upper_bound, .heuristic_used, .time_limit_heuristic,
   .config_file, .solver_name, .print_level]

/-- The current wire value of each parameters field. -/
def prmFieldVal (q : Parameters) : ParamField → JVal
  | .time_limit => .num q.time_limit
  | .action => .str q.action
  | .upper_bound => .num q.upper_bound
  | .heuristic_used => .bool q.heuristic_used
  | .time_limit_heuristic => .num q.time_limit_heuristic
  | .config_file => .str q.config_file
  | .solver_name => .str q.solver_name
  | .print_level => .num q.print_level
  | .cplex_path => .str q.cplex_path

/-- Spec-side compaction baselines of the optional parameters fields;
each equals the documented constructor default.  Entries for the
mandatory / never-emitted fields are unused. -/
def prmCompactionBaseline : ParamField → JVal
  | .upper_bound => .num 1000000
  | .heuristic_used => .bool false
  | .time_limit_heuristic => .num 20
  | .config_file => .str ""
  | .solver_name => .str "CLP"
  | .print_level => .num (-1)
  | _ => .num 0

/-- The default-constructed `VehicleType(1, 0, 0)`: every optional field
at its documented constructor default, in particular `max_number = 1`. -/
def defaultVehicleType : VehicleType :=
  ⟨"", 1, 0, 0, 0, 0, 1, 0, 0, 0, 0⟩

/-- C2 counterexample: the default-constructed `Parameters()` has
`time_limit` equal to its documented default 300, yet the compacted
accessor emits `time_limit`; the default-constructed vehicle type has
`max_number` equal to its documented default 1, yet the compacted
accessor emits `max_number` — refuting "omits every field whose value
equals its documented default". -/
theorem c2_counterexample :
  defaultParameters.time_limit = 300
  ∧ ParamField.time_limit ∈ (defaultParameters.get_parameters false).map Prod.fst
  ∧ defaultVehicleType.max_number = 1
  ∧ VTField.max_number ∈ (defaultVehicleType.get_vehicle_type false).map Prod.fst := by
  decide

/-- C2 amended: with debug off, each compacted accessor emits exactly
its mandatory fields (vehicle type: id / start / end point ids; point:
id; link: start / end point ids; parameters: time_limit and action —
the latter two despite having documented defaults) followed by the
optional fields whose value differs from the compaction baseline, where
every baseline equals the documented constructor default except
`max_number`, compared against 0 instead of its default 1; the
`cplex_path` parameter is never emitted. -/
theorem c2_compaction_amended :
  (∀ v : VehicleType, (v.get_vehicle_type false).map Prod.fst
      = vtMandatoryFields
        ++ vtOptionalFields.filter (fun f => vtFieldVal v f != vtCompactionBaseline f))
  ∧ (∀ p : Point, (p.get_point false).map Prod.fst
      = pMandatoryFields
        ++ pOptionalFields.filter (fun f => pFieldVal p f != pCompactionBaseline f))
  ∧ (∀ l : Link, (l.get_link false).map Prod.fst
      = lMandatoryFields
        ++ lOptionalFields.filter (fun f => lFieldVal l f != lCompactionBaseline f))
  ∧ (∀ q : Parameters, (q.get_parameters false).map Prod.fst
      = prmMandatoryFields
        ++ prmOptionalFields.filter (fun f => prmFieldVal q f != prmCompactionBaseline f))
  ∧ (∀ q : Parameters,
      ParamField.cplex_path ∉ (q.get_parameters false).map Prod.fst) := by
  refine ⟨?_, ?_, ?_, ?_, ?_⟩
  · intro v
    simp only [VehicleType.get_vehicle_type, vtMandatoryFields, vtOptionalFields,
      vtFieldVal, vtCompactionBaseline, filter_cons_as_append, List.filter_nil,
      List.map_append, map_fst_ite_singleton, List.map_cons, List.map_nil,
      List.append_assoc, List.append_nil,
      bne_iff_ne, ne_eq, Bool.false_eq_true, or_false,
      JVal.str.injEq, JVal.num.injEq, decide_not, decide_eq_true_eq]
  · intro p
    simp only [Point.get_point, pMandatoryFields, pOptionalFields,
      pFieldVal, pCompactionBaseline, filter_cons_as_append, List.filter_nil,
      List.map_append, map_fst_ite_singleton, List.map_cons, List.map_nil,
      List.append_assoc, List.append_nil,
      bne_iff_ne, ne_eq, Bool.false_eq_true, or_false,
      JVal.str.injEq, JVal.num.injEq, JVal.arr.injEq, decide_not, decide_eq_true_eq]
  · intro l
    simp only [Link.get_link, lMandatoryFields, lOptionalFields,
      lFieldVal, lCompactionBaseline, filter_cons_as_append, List.filter_nil,
      List.map_append, map_fst_ite_singleton, List.map_cons, List.map_nil,
      List.append_assoc, List.append_nil,
      bne_iff_ne, ne_eq, Bool.false_eq_true, or_false, Bool.not_eq_false,
      JVal.str.injEq, JVal.num.injEq, JVal.bool.injEq, decide_not, decide_eq_true_eq]
  · intro q
    simp only [Parameters.get_parameters, prmMandatoryFields, prmOptionalFields,
      prmFieldVal, prmCompactionBaseline, filter_cons_as_append, List.filter_nil,
      List.map_append, map_fst_ite_singleton, List.map_cons, List.map_nil,
      List.append_assoc, List.append_nil,
      bne_iff_ne, ne_eq, Bool.false_eq_true, or_false, Bool.not_eq_false,
      JVal.str.injEq, JVal.num.injEq, JVal.bool.injEq, decide_not, decide_eq_true_eq]
  · intro q
    simp only [Parameters.get_parameters, List.map_append, map_fst_ite_singleton,
      List.map_cons, List.map_nil, List.mem_append]
    split_ifs <;> simp
